import Mathlib

/-
Verification of the window/tab controller and the renderer event bridge.

Part 1 models src/packages/electron-chrome-extensions/src/renderer/event.ts.
Callbacks are identified by natural numbers (function identity), the
ipcRenderer listener table is modelled per channel, and every
ipcRenderer.send of an add-listener or remove-listener message is logged.
-/

/-- Wire messages sent by ipcRenderer.send in event.ts: the channel
crx-add-listener carries (extensionId, name), crx-remove-listener likewise. -/
inductive WireMsg where
  | addListenerMsg (extensionId : String) (name : String)
  | removeListenerMsg (extensionId : String) (name : String)
deriving DecidableEq

/-- A function value attached to an ipcRenderer channel. addExtensionListener
attaches a fresh anonymous wrapper closing over the callback; a raw callback
value is a distinct function object from every wrapper. -/
inductive IpcFn where
  | raw (cb : Nat)
  | wrapper (uid : Nat) (cb : Nat)
deriving DecidableEq

/-- State of the renderer event bridge: the module level listenerMap of
event.ts, the ipcRenderer per channel listener lists, the chronological log
of wire messages sent, and a counter for fresh wrapper identities. -/
structure BridgeState where
  listenerMap : List (String × List Nat)
  ipc : List (String × List IpcFn)
  wireLog : List WireMsg
  nextUid : Nat
deriving DecidableEq

def assocGet {α : Type} (m : List (String × α)) (k : String) : Option α :=
  match m with
  | [] => none
  | (k0, v) :: rest => if k0 == k then some v else assocGet rest k

def assocSet {α : Type} (m : List (String × α)) (k : String) (v : α) : List (String × α) :=
  match m with
  | [] => [(k, v)]
  | (k0, v0) :: rest => if k0 == k then (k0, v) :: rest else (k0, v0) :: assocSet rest k v

def assocErase {α : Type} (m : List (String × α)) (k : String) : List (String × α) :=
  match m with
  | [] => []
  | (k0, v0) :: rest => if k0 == k then rest else (k0, v0) :: assocErase rest k

/-- Remove the first occurrence of cb, as listeners.findIndex plus splice do;
when cb is absent the list is unchanged. -/
def removeFirst (l : List Nat) (cb : Nat) : List Nat :=
  match l with
  | [] => []
  | x :: rest => if x == cb then rest else x :: removeFirst rest cb

def removeFirstFn (l : List IpcFn) (f : IpcFn) : List IpcFn :=
  match l with
  | [] => []
  | x :: rest => if x == f then rest else x :: removeFirstFn rest f

/-- EventEmitter.removeListener removes at most one instance, scanning from
the end of the listener list. -/
def removeLastFn (l : List IpcFn) (f : IpcFn) : List IpcFn :=
  (removeFirstFn l.reverse f).reverse

def formatIpcName (name : String) : String := "crx-" ++ name

/-- Embedding of addExtensionListener from event.ts: on a missing map entry
send crx-add-listener and install an empty list, push the callback, and
attach a fresh wrapper around the callback to the crx channel. -/
def addExtensionListener (extensionId : String) (name : String) (cb : Nat)
    (s : BridgeState) : BridgeState :=
  let s1 :=
    match assocGet s.listenerMap name with
    | none =>
        BridgeState.mk (assocSet s.listenerMap name [])
          s.ipc (s.wireLog ++ [WireMsg.addListenerMsg extensionId name]) s.nextUid
    | some _ => s
  let listeners := (assocGet s1.listenerMap name).getD []
  let s2 := BridgeState.mk (assocSet s1.listenerMap name (listeners ++ [cb]))
    s1.ipc s1.wireLog s1.nextUid
  let ch := formatIpcName name
  BridgeState.mk s2.listenerMap
    (assocSet s2.ipc ch (((assocGet s2.ipc ch).getD []) ++ [IpcFn.wrapper s2.nextUid cb]))
    s2.wireLog (s2.nextUid + 1)

/-- Embedding of removeExtensionListener from event.ts: when the map entry
exists it is deleted outright, then the first identity match of the callback
is spliced out of the captured array, and crx-remove-listener is sent only
when the spliced array is empty; finally ipcRenderer.removeListener is
called with the raw callback, never with the wrapper that was attached. -/
def removeExtensionListener (extensionId : String) (name : String) (cb : Nat)
    (s : BridgeState) : BridgeState :=
  let s1 :=
    match assocGet s.listenerMap name with
    | some listeners =>
        let m1 := assocErase s.listenerMap name
        let spliced := removeFirst listeners cb
        if spliced.length == 0 then
          BridgeState.mk m1 s.ipc
            (s.wireLog ++ [WireMsg.removeListenerMsg extensionId name]) s.nextUid
        else
          BridgeState.mk m1 s.ipc s.wireLog s.nextUid
    | none => s
  let ch := formatIpcName name
  BridgeState.mk s1.listenerMap
    (assocSet s1.ipc ch (removeLastFn ((assocGet s1.ipc ch).getD []) (IpcFn.raw cb)))
    s1.wireLog s1.nextUid

/-- Embedding of hasExtensionListener from event.ts. -/
def hasExtensionListener (extensionId : String) (name : String) (cb : Nat)
    (s : BridgeState) : Bool :=
  match assocGet s.listenerMap name with
  | some listeners => listeners.any (fun e => e == cb)
  | none => false

/-- Callbacks invoked when the host dispatches an occurrence of the event:
ipcRenderer emits on the crx channel, and each attached function runs; a
wrapper forwards to the callback it closes over. -/
def dispatchTargets (s : BridgeState) (name : String) : List Nat :=
  ((assocGet s.ipc (formatIpcName name)).getD []).map (fun f =>
    match f with
    | IpcFn.raw cb => cb
    | IpcFn.wrapper _ cb => cb)

inductive BridgeOp where
  | add (extensionId : String) (name : String) (cb : Nat)
  | remove (extensionId : String) (name : String) (cb : Nat)
deriving DecidableEq

def stepBridge (s : BridgeState) (op : BridgeOp) : BridgeState :=
  match op with
  | BridgeOp.add e n cb => addExtensionListener e n cb s
  | BridgeOp.remove e n cb => removeExtensionListener e n cb s

def runBridge (s : BridgeState) (ops : List BridgeOp) : BridgeState :=
  ops.foldl stepBridge s

def initBridge : BridgeState := BridgeState.mk [] [] [] 0

/-- Number of crx-add-listener messages sent for the event name. -/
def subsSent (name : String) (s : BridgeState) : Nat :=
  s.wireLog.countP (fun m =>
    match m with
    | WireMsg.addListenerMsg _ n => n == name
    | _ => false)

/-- Number of crx-remove-listener messages sent for the event name. -/
def unsubsSent (name : String) (s : BridgeState) : Nat :=
  s.wireLog.countP (fun m =>
    match m with
    | WireMsg.removeListenerMsg _ n => n == name
    | _ => false)

/-- Local callback count for an event name: length of the listenerMap entry. -/
def callbackCount (name : String) (s : BridgeState) : Nat :=
  ((assocGet s.listenerMap name).getD []).length

/-- Claim C1: the reference count invariant fails on the code. After
add(A), add(B), remove(A) on event x the local callback count is 0 while one
subscribe message is outstanding, because removeExtensionListener deletes
the whole listenerMap entry on every call; after remove(B) as well, the
subscribe message is still outstanding and no unsubscribe was ever sent,
leaving a dangling host side subscription. -/
theorem C1_refcount_invariant_fails :
    callbackCount "x"
      (runBridge initBridge
        [BridgeOp.add "e" "x" 1, BridgeOp.add "e" "x" 2, BridgeOp.remove "e" "x" 1]) = 0 ∧
    subsSent "x"
      (runBridge initBridge
        [BridgeOp.add "e" "x" 1, BridgeOp.add "e" "x" 2, BridgeOp.remove "e" "x" 1]) = 1 ∧
    unsubsSent "x"
      (runBridge initBridge
        [BridgeOp.add "e" "x" 1, BridgeOp.add "e" "x" 2, BridgeOp.remove "e" "x" 1]) = 0 ∧
    callbackCount "x"
      (runBridge initBridge
        [BridgeOp.add "e" "x" 1, BridgeOp.add "e" "x" 2, BridgeOp.remove "e" "x" 1,
         BridgeOp.remove "e" "x" 2]) = 0 ∧
    subsSent "x"
      (runBridge initBridge
        [BridgeOp.add "e" "x" 1, BridgeOp.add "e" "x" 2, BridgeOp.remove "e" "x" 1,
         BridgeOp.remove "e" "x" 2]) = 1 ∧
    unsubsSent "x"
      (runBridge initBridge
        [BridgeOp.add "e" "x" 1, BridgeOp.add "e" "x" 2, BridgeOp.remove "e" "x" 1,
         BridgeOp.remove "e" "x" 2]) = 0 := by
  decide

/-- Claim C2: removing a callback that was never registered is not a no-op.
With callback 1 registered for x, remove of the unregistered callback 2
deletes the whole per name entry from the registry, so callback 1 is
silently dropped from the map; no wire message is sent. -/
theorem C2_remove_unregistered_mutates_registry :
    (runBridge initBridge [BridgeOp.add "e" "x" 1]).listenerMap = [("x", [1])] ∧
    (runBridge initBridge [BridgeOp.add "e" "x" 1, BridgeOp.remove "e" "x" 2]).listenerMap = [] ∧
    hasExtensionListener "e" "x" 1
      (runBridge initBridge [BridgeOp.add "e" "x" 1, BridgeOp.remove "e" "x" 2]) = false ∧
    (runBridge initBridge [BridgeOp.add "e" "x" 1, BridgeOp.remove "e" "x" 2]).wireLog =
      (runBridge initBridge [BridgeOp.add "e" "x" 1]).wireLog := by
  decide

/-- Claim C3: a removed callback is still invoked by a later host dispatch.
After add then remove of callback 7 for event x, the registry no longer
holds it, yet the wrapper attached by addExtensionListener is still on the
crx channel, because removeExtensionListener passed the raw callback to
ipcRenderer.removeListener and the identities differ, so a dispatch of x
still invokes callback 7. -/
theorem C3_removed_callback_still_dispatched :
    hasExtensionListener "e" "x" 7
      (runBridge initBridge [BridgeOp.add "e" "x" 7, BridgeOp.remove "e" "x" 7]) = false ∧
    dispatchTargets
      (runBridge initBridge [BridgeOp.add "e" "x" 7, BridgeOp.remove "e" "x" 7]) "x" = [7] := by
  decide

/-
Part 2 models the browser shell in src/unnamed/part_000: the Browser
controller, its windows list, the TabbedBrowserWindow wrapper, and the
capability provider handed to ElectronChromeExtensions (createTab,
createWindow, removeWindow), plus the owning window resolution
(getParentWindowOfTab, getWindowFromBrowserWindow, getWindowFromWebContents).
The tab collection required from ./tabs is repository code that is not under
src, so its operations are modelled from the spec where noted.
-/

/-- A JavaScript primitive as it can appear in details.windowId; the typeof
check in createTab accepts only the num case. -/
inductive JsVal where
  | num (n : Nat)
  | str (s : String)
  | boolean (b : Bool)
  | undef
deriving DecidableEq

/-- String interpolation of a JsVal as a JS template literal renders it. -/
def jsValShow : JsVal → String
  | JsVal.num n => toString n
  | JsVal.str s => s
  | JsVal.boolean b => if b then "true" else "false"
  | JsVal.undef => "undefined"

/-- Errors thrown by the shell code: a plain new Error(msg), or the
ReferenceError raised when an identifier that is not in scope is evaluated. -/
inductive JsErr where
  | error (msg : String)
  | referenceErr (ident : String)
deriving DecidableEq

/-- The error thrown at line 198 of part_000 for an unresolved windowId. -/
def windowNotFound (v : JsVal) : JsErr :=
  JsErr.error ("Unable to find windowId=" ++ jsValShow v)

structure Tab where
  id : Nat
  url : Option String
deriving DecidableEq

/-- State of one Tabs collection: the ordered tab list, the selected pointer,
a counter for fresh tab ids, and whether destroy was called. -/
structure TabsState where
  tabList : List Tab
  selectedId : Option Nat
  nextTabId : Nat
  tabsDestroyed : Bool
deriving DecidableEq

/-- Modelled from the spec: the tab collection (required from ./tabs) is
repository code missing from src. Section 6 gives its contract: create(),
select(id), remove(id), destroy(), and a selected accessor. create appends a
fresh tab; by the section 3 invariant that a window has exactly one selected
tab once at least one tab exists, the created tab becomes selected when no
tab was selected before. -/
def tabsCreate (t : TabsState) : TabsState × Tab :=
  let tab : Tab := Tab.mk t.nextTabId none
  (TabsState.mk (t.tabList ++ [tab])
    (match t.selectedId with
     | none => some tab.id
     | some k => some k)
    (t.nextTabId + 1) t.tabsDestroyed, tab)

/-- Modelled from the spec: select(id) moves the selected pointer to the tab
with the given id when it is a member of the collection. -/
def tabsSelect (t : TabsState) (id : Nat) : TabsState :=
  if t.tabList.any (fun tb => tb.id == id) then
    TabsState.mk t.tabList (some id) t.nextTabId t.tabsDestroyed
  else t

/-- Navigation of the tab with the given id, as tab.loadURL performs. -/
def tabsSetUrl (t : TabsState) (id : Nat) (u : String) : TabsState :=
  TabsState.mk
    (t.tabList.map (fun tb => if tb.id == id then Tab.mk tb.id (some u) else tb))
    t.selectedId t.nextTabId t.tabsDestroyed

/-- Modelled from the spec: destroy() tears down every tab of the collection. -/
def tabsDestroy (t : TabsState) : TabsState :=
  TabsState.mk [] none t.nextTabId true

/-- One TabbedBrowserWindow: the id the presentation layer assigned, the id
of the main webContents of its BrowserWindow, focus and destroyed flags, the
initialUrl option captured by the tab-created handler, and the owned tabs. -/
structure TWindow where
  id : Nat
  webContentsId : Nat
  focused : Bool
  destroyed : Bool
  initialUrl : Option String
  tabs : TabsState
deriving DecidableEq

/-- Observable state of a BrowserWindow handle passed across the capability
boundary: its id and what isDestroyed() returns. -/
structure BWRef where
  id : Nat
  isDestroyed : Bool
deriving DecidableEq

/-- The browser-action popup tracked by the controller: the webContents id of
its own BrowserWindow and the parent window handle. -/
structure PopupState where
  popupWebContentsId : Nat
  parent : BWRef
deriving DecidableEq

/-- State of the Browser controller: the windows array, counters handing out
fresh presentation ids, and the tracked popup if any. -/
structure BrowserState where
  windows : List TWindow
  nextWindowId : Nat
  nextWcId : Nat
  popup : Option PopupState
deriving DecidableEq

/-- Role of a webContents as getType() reports it. -/
inductive WCType where
  | window
  | browserView
  | webview
  | backgroundPage
  | other (t : String)
deriving DecidableEq

structure WebContents where
  wcId : Nat
  ctype : WCType
  ownerWindowId : Option Nat
deriving DecidableEq

/-- In place update of the first window with the given id, as mutating the
object found by Array.prototype.find does. -/
def updateWindow (ws : List TWindow) (n : Nat) (f : TWindow → TWindow) : List TWindow :=
  match ws with
  | [] => []
  | w :: rest => if w.id == n then f w :: rest else w :: updateWindow rest n f

/-- Embedding of Browser.createWindow plus the TabbedBrowserWindow
constructor: a fresh BrowserWindow id and webContents id are assigned, the
webui page is loaded, the Tabs collection starts empty, the initial tab is
deferred to a microtask (so the tab list is still empty when createWindow
returns), and the window is pushed onto the windows array. -/
def browserCreateWindow (s : BrowserState) (initialUrl : Option String) :
    BrowserState × TWindow :=
  let w : TWindow := TWindow.mk s.nextWindowId s.nextWcId false false initialUrl
    (TabsState.mk [] none 0 false)
  (BrowserState.mk (s.windows ++ [w]) (s.nextWindowId + 1) (s.nextWcId + 1) s.popup, w)

structure CreateWindowDetails where
  url : Option String
deriving DecidableEq

/-- Embedding of the capability provider createWindow closure at lines
217 to 223 of part_000. It evaluates details.url or else newTabUrl; but
newTabUrl is a const declared only inside Browser.createInitialWindow
(line 296) and no binding of that name is in scope at line 219, so when
details.url is absent or falsy the closure throws a ReferenceError instead
of creating a window. With a truthy url the disjunction short circuits and
a window is created with that initialUrl. -/
def capCreateWindow (s : BrowserState) (d : CreateWindowDetails) :
    Except JsErr (BrowserState × BWRef) :=
  match d.url with
  | some u =>
      if u == "" then Except.error (JsErr.referenceErr "newTabUrl")
      else
        let r := browserCreateWindow s (some u)
        Except.ok (r.1, BWRef.mk r.2.id false)
  | none => Except.error (JsErr.referenceErr "newTabUrl")

/-- Embedding of Browser.getWindowFromBrowserWindow: null for a destroyed
handle, otherwise the first tracked window with the same id. -/
def getWindowFromBrowserWindow (s : BrowserState) (bw : BWRef) : Option TWindow :=
  if bw.isDestroyed then none
  else s.windows.find? (fun w => w.id == bw.id)

/-- Embedding of TabbedBrowserWindow.destroy: destroy the tabs, destroy the
BrowserWindow. The object itself stays wherever it is referenced. -/
def windowDestroy (w : TWindow) : TWindow :=
  TWindow.mk w.id w.webContentsId false true w.initialUrl (tabsDestroy w.tabs)

/-- Embedding of the capability provider removeWindow closure at lines
224 to 227: resolve the window, destroy it if found. Nothing removes the
entry from the windows array. -/
def removeWindow (s : BrowserState) (bw : BWRef) : BrowserState :=
  match getWindowFromBrowserWindow s bw with
  | some w => BrowserState.mk (updateWindow s.windows w.id windowDestroy)
      s.nextWindowId s.nextWcId s.popup
  | none => s

structure CreateTabDetails where
  windowId : JsVal
  url : Option String
  active : Option Bool
deriving DecidableEq

/-- Body of createTab once the window resolved: win.tabs.create() runs, the
tab-created handler loads options.initialUrl into the new tab when set, the
closure then navigates to details.url when truthy, selects the tab unless
details.active is the boolean false, and returns the pair of the new tab
webContents handle and the owning BrowserWindow handle. -/
def createTabIn (s : BrowserState) (n : Nat) (w : TWindow) (d : CreateTabDetails) :
    BrowserState × Nat × Nat :=
  let created := tabsCreate w.tabs
  let tab := created.2
  let tabs2 :=
    match w.initialUrl with
    | some u0 => tabsSetUrl created.1 tab.id u0
    | none => created.1
  let tabs3 :=
    match d.url with
    | some u => if u == "" then tabs2 else tabsSetUrl tabs2 tab.id u
    | none => tabs2
  let tabs4 :=
    match d.active with
    | some b => if b then tabsSelect tabs3 tab.id else tabs3
    | none => tabsSelect tabs3 tab.id
  (BrowserState.mk
      (updateWindow s.windows n (fun w0 =>
        TWindow.mk w0.id w0.webContentsId w0.focused w0.destroyed w0.initialUrl tabs4))
      s.nextWindowId s.nextWcId s.popup,
    tab.id, w.id)

/-- Embedding of the capability provider createTab closure at lines 192 to
207 of part_000: the window resolves only when details.windowId has typeof
number and the windows array holds an entry with that id; otherwise the
closure throws the windowId error. -/
def createTab (s : BrowserState) (d : CreateTabDetails) :
    Except JsErr (BrowserState × Nat × Nat) :=
  match d.windowId with
  | JsVal.num n =>
      match s.windows.find? (fun w => w.id == n) with
      | none => Except.error (windowNotFound (JsVal.num n))
      | some w => Except.ok (createTabIn s n w d)
  | v => Except.error (windowNotFound v)

/-- Embedding of the Electron static BrowserWindow.getFocusedWindow over the
windows the controller created: the focused live window or null. -/
def electronGetFocusedWindow (s : BrowserState) : Option BWRef :=
  (s.windows.find? (fun w => w.focused && !w.destroyed)).map
    (fun w => BWRef.mk w.id w.destroyed)

/-- Embedding of BrowserWindow.fromWebContents for the top level windows the
controller created. -/
def electronFromWebContents (s : BrowserState) (wc : WebContents) : Option BWRef :=
  (s.windows.find? (fun w => !w.destroyed && w.webContentsId == wc.wcId)).map
    (fun w => BWRef.mk w.id w.destroyed)

/-- Embedding of webContents.getOwnerBrowserWindow for embedded surfaces. -/
def ownerBrowserWindow (s : BrowserState) (wc : WebContents) : Option BWRef :=
  wc.ownerWindowId.bind (fun i =>
    (s.windows.find? (fun w => !w.destroyed && w.id == i)).map
      (fun w => BWRef.mk w.id w.destroyed))

/-- Embedding of getParentWindowOfTab at lines 77 to 89 of part_000: a switch
on the webContents type; backgroundPage resolves through the Electron static
BrowserWindow.getFocusedWindow, which is null when no window is focused; an
unrecognized type throws. -/
def getParentWindowOfTab (s : BrowserState) (tab : WebContents) :
    Except JsErr (Option BWRef) :=
  match tab.ctype with
  | WCType.window => Except.ok (electronFromWebContents s tab)
  | WCType.browserView => Except.ok (ownerBrowserWindow s tab)
  | WCType.webview => Except.ok (ownerBrowserWindow s tab)
  | WCType.backgroundPage => Except.ok (electronGetFocusedWindow s)
  | WCType.other t => Except.error (JsErr.error ("Unable to find parent window of " ++ t))

/-- Embedding of Browser.getWindowFromWebContents at lines 169 to 179: the
popup webContents resolves to the popup parent, every other surface goes
through getParentWindowOfTab, and a null parent yields null. -/
def getWindowFromWebContents (s : BrowserState) (wc : WebContents) :
    Except JsErr (Option TWindow) :=
  let isPopupWC :=
    match s.popup with
    | some p => wc.wcId == p.popupWebContentsId
    | none => false
  if isPopupWC then
    match s.popup with
    | some p => Except.ok (getWindowFromBrowserWindow s p.parent)
    | none => Except.ok none
  else
    match getParentWindowOfTab s wc with
    | Except.error e => Except.error e
    | Except.ok none => Except.ok none
    | Except.ok (some bw) => Except.ok (getWindowFromBrowserWindow s bw)

/-- The controller state right after construction: no windows, no popup.
BrowserWindow ids start at 1 as in Electron; webContents ids start at 100 in
this model only to keep them visibly apart from tab ids. -/
def initBrowser : BrowserState := BrowserState.mk [] 1 100 none

/-
Part 3 models loadExtensions at lines 32 to 75 of part_000, down to the list
of directories handed to session.loadExtension (the load list). The
filesystem facts the scan consults are: which children of the extensions
root are directories, whether manifest.json is a file directly inside a
candidate, the children of a candidate, and whether manifest.json is a file
inside a child. VERSION_REGEX is the anchored pattern of two to four
digit-dot groups followed by an underscore and digits.
-/

structure SubDirEnt where
  name : String
  isDirectory : Bool
  hasManifest : Bool
deriving DecidableEq

structure CandidateEnt where
  name : String
  isDirectory : Bool
  hasManifest : Bool
  entries : List SubDirEnt
deriving DecidableEq

/-- Tails of cs left after consuming a nonempty run of leading digits, one
tail per possible run length. -/
def digitTails : List Char → List (List Char)
  | [] => []
  | c :: rest => if c.isDigit then rest :: digitTails rest else []

/-- Tails left after one group of the pattern, digits then an optional dot. -/
def atomTails (cs : List Char) : List (List Char) :=
  ((digitTails cs).map (fun r =>
    match r with
    | '.' :: r2 => [r, r2]
    | _ => [r])).flatten

/-- Tails left after exactly k groups. -/
def repTails : Nat → List (List Char) → List (List Char)
  | 0, ls => ls
  | n + 1, ls => repTails n ((ls.map atomTails).flatten)

/-- Whether a tail is exactly an underscore followed by one or more digits. -/
def underscoreDigits (cs : List Char) : Bool :=
  match cs with
  | '_' :: d => !d.isEmpty && d.all (fun c => c.isDigit)
  | _ => false

/-- Matcher for VERSION_REGEX at line 31 of part_000: the whole name must be
two to four groups of digits each optionally followed by a dot, then an
underscore and a digit run. -/
def versionRegexTest (s : String) : Bool :=
  [2, 3, 4].any (fun k => (repTails k [s.data]).any underscoreDigits)

/-- Predicate of the find over the candidate children at lines 51 to 53. -/
def versionDirPred (d : SubDirEnt) : Bool :=
  d.isDirectory && versionRegexTest d.name

/-- Errors a scan promise can reject with. path.join throws a TypeError when
one argument is undefined. -/
inductive ScanErr where
  | typeErr (msg : String)
deriving DecidableEq

def pathJoin (a b : String) : String := a ++ "/" ++ b

/-- Embedding of the per candidate async callback at lines 40 to 59: the
candidate path itself when it has a manifest; otherwise find the first
version named child directory. When none exists, versionDir is undefined
and path.join(extPath, versionDir) throws. When one exists, its path
qualifies if it has a manifest, and otherwise the callback resolves with
undefined (modelled as none). -/
def scanCandidate (extensionsPath : String) (c : CandidateEnt) :
    Except ScanErr (Option String) :=
  let extPath := pathJoin extensionsPath c.name
  if c.hasManifest then Except.ok (some extPath)
  else
    match c.entries.find? versionDirPred with
    | none => Except.error
        (ScanErr.typeErr "The path argument must be of type string. Received undefined")
    | some d =>
        if d.hasManifest then Except.ok (some (pathJoin extPath d.name))
        else Except.ok none

/-- Promise.all over the per candidate promises: the first rejection in list
order rejects the whole scan. -/
def promiseAll {α β : Type} (f : α → Except ScanErr β) : List α → Except ScanErr (List β)
  | [] => Except.ok []
  | x :: rest =>
      match f x with
      | Except.error e => Except.error e
      | Except.ok b =>
          match promiseAll f rest with
          | Except.error e => Except.error e
          | Except.ok bs => Except.ok (b :: bs)

/-- Embedding of loadExtensions down to the load list: children that are not
directories are filtered out, each candidate is scanned, and the resolved
paths are kept by filter(Boolean). -/
def loadList (extensionsPath : String) (subDirectories : List CandidateEnt) :
    Except ScanErr (List String) :=
  match promiseAll (scanCandidate extensionsPath)
      (subDirectories.filter (fun c => c.isDirectory)) with
  | Except.error e => Except.error e
  | Except.ok l => Except.ok (l.filterMap id)

/-- A member on which the per candidate scan rejects makes the whole scan
reject, so no candidate contributes anything. -/
theorem promiseAll_error {α β : Type} (f : α → Except ScanErr β) :
    ∀ (l : List α) (x : α), x ∈ l → (∃ e, f x = Except.error e) →
      ∃ e, promiseAll f l = Except.error e := by
  intro l
  induction l with
  | nil => intro x hx; exact absurd hx (List.not_mem_nil x)
  | cons y rest ih =>
      intro x hx hfe
      rcases hfe with ⟨e, he⟩
      rcases List.mem_cons.mp hx with hxy | hxr
      · subst hxy
        exact ⟨e, by simp [promiseAll, he]⟩
      · cases hfy : f y with
        | error e2 => exact ⟨e2, by simp [promiseAll, hfy]⟩
        | ok b =>
            rcases ih x hxr ⟨e, he⟩ with ⟨e3, he3⟩
            exact ⟨e3, by simp [promiseAll, hfy, he3]⟩

/-- Claim C6 counterexample: the claim fails at two concrete candidates of
the root "exts". A candidate named plain with neither a direct manifest nor
any version named child is not silently skipped: its scan throws the
path.join TypeError, and the whole scan aborts, so the qualifying sibling
named good contributes nothing either. A candidate named bare whose only
child is the directory 1.2.3 with a manifest does not contribute the child
path, because VERSION_REGEX requires the underscore and build number suffix,
so 1.2.3 does not match and that scan throws as well. -/
theorem C6_counterexample :
    versionRegexTest "2024.9.29.1273_0" = true ∧
    versionRegexTest "1.2.3" = false ∧
    scanCandidate "exts" (CandidateEnt.mk "plain" true false []) =
      Except.error
        (ScanErr.typeErr "The path argument must be of type string. Received undefined") ∧
    loadList "exts"
        [CandidateEnt.mk "good" true true [],
         CandidateEnt.mk "plain" true false []] =
      Except.error
        (ScanErr.typeErr "The path argument must be of type string. Received undefined") ∧
    scanCandidate "exts"
        (CandidateEnt.mk "bare" true false [SubDirEnt.mk "1.2.3" true true]) =
      Except.error
        (ScanErr.typeErr "The path argument must be of type string. Received undefined") := by
  exact ⟨by decide, by decide, rfl, rfl, rfl⟩

/-- Claim C6 as amended: a candidate directory contributes its own path when
it directly contains a manifest; otherwise, when it has a child directory
whose name matches VERSION_REGEX (digit-dot groups with a mandatory
underscore and build number suffix), it contributes that child path if the
child contains a manifest and contributes nothing, silently, if it does not;
but when no child matches the pattern the candidate scan throws a TypeError
from path.join on undefined, which rejects the whole Promise.all, so the
scan of every candidate aborts and the load list is not produced. -/
theorem C6_amended_scan (extensionsPath : String) (cs : List CandidateEnt)
    (c : CandidateEnt) (hmem : c ∈ cs) (hdir : c.isDirectory = true) :
    (c.hasManifest = true →
      scanCandidate extensionsPath c = Except.ok (some (pathJoin extensionsPath c.name))) ∧
    (c.hasManifest = false → ∀ d, c.entries.find? versionDirPred = some d →
      scanCandidate extensionsPath c =
        Except.ok (if d.hasManifest then
          some (pathJoin (pathJoin extensionsPath c.name) d.name) else none)) ∧
    (c.hasManifest = false → c.entries.find? versionDirPred = none →
      ∃ e, loadList extensionsPath cs = Except.error e) := by
  refine ⟨?_, ?_, ?_⟩
  · intro hm
    simp [scanCandidate, hm]
  · intro hm d hd
    cases hdm : d.hasManifest <;> simp [scanCandidate, hm, hd, hdm]
  · intro hm hnone
    have hcf : c ∈ cs.filter (fun c0 => c0.isDirectory) := by
      rw [List.mem_filter]
      exact ⟨hmem, hdir⟩
    have herr : ∃ e, scanCandidate extensionsPath c = Except.error e := by
      refine ⟨ScanErr.typeErr "The path argument must be of type string. Received undefined", ?_⟩
      simp [scanCandidate, hm, hnone]
    rcases promiseAll_error (scanCandidate extensionsPath) _ c hcf herr with ⟨e, he⟩
    exact ⟨e, by simp [loadList, he]⟩

/-- Concrete instance of the amended claim: a candidate whose version named
child 2024.9.29.1273_0 holds a manifest contributes that child path. -/
theorem C6_amended_scan_witness :
    scanCandidate "exts"
      (CandidateEnt.mk "vdir" true false [SubDirEnt.mk "2024.9.29.1273_0" true true]) =
      Except.ok (some "exts/vdir/2024.9.29.1273_0") := by
  have h := (C6_amended_scan "exts"
    [CandidateEnt.mk "vdir" true false [SubDirEnt.mk "2024.9.29.1273_0" true true]]
    (CandidateEnt.mk "vdir" true false [SubDirEnt.mk "2024.9.29.1273_0" true true])
    (by simp) rfl).2.1 rfl (SubDirEnt.mk "2024.9.29.1273_0" true true) (by decide)
  simpa using h

/-
Part 4: theorems about the browser shell model.
-/

theorem updateWindow_map_id (ws : List TWindow) (n : Nat) (f : TWindow → TWindow)
    (hf : ∀ w, (f w).id = w.id) :
    (updateWindow ws n f).map (fun w => w.id) = ws.map (fun w => w.id) := by
  induction ws with
  | nil => rfl
  | cons w rest ih =>
      by_cases h : (w.id == n) = true
      · simp [updateWindow, h, hf]
      · simp only [updateWindow, h, if_false, Bool.not_eq_true] at *
        simp [h, ih]

theorem updateWindow_find (ws : List TWindow) (n : Nat) (f : TWindow → TWindow) (w : TWindow)
    (hf : ∀ w0, (f w0).id = w0.id)
    (h : ws.find? (fun w0 => w0.id == n) = some w) :
    (updateWindow ws n f).find? (fun w0 => w0.id == n) = some (f w) := by
  induction ws with
  | nil => simp [List.find?] at h
  | cons w0 rest ih =>
      cases hw : (w0.id == n) with
      | true =>
          have hww : w0 = w := by
            have h3 := h
            simp [List.find?_cons, hw] at h3
            exact h3
          subst hww
          have hfw : ((f w0).id == n) = true := by rw [hf]; exact hw
          simp [updateWindow, hw, List.find?_cons, hfw]
      | false =>
          have h2 : rest.find? (fun w1 => w1.id == n) = some w := by
            have h3 := h
            simp [List.find?_cons, hw] at h3
            exact h3
          simp [updateWindow, hw, List.find?_cons, ih h2]

theorem updateWindow_mem (ws : List TWindow) (n : Nat) (f : TWindow → TWindow) (w0 : TWindow)
    (h : w0 ∈ ws) (hne : w0.id ≠ n) :
    w0 ∈ updateWindow ws n f := by
  induction ws with
  | nil => exact absurd h (List.not_mem_nil w0)
  | cons w rest ih =>
      rcases List.mem_cons.mp h with hw | hw
      · subst hw
        have : (w0.id == n) = false := by simpa using hne
        simp [updateWindow, this]
      · by_cases hcond : (w.id == n) = true
        · simp [updateWindow, hcond, List.mem_cons, hw]
        · simp only [updateWindow, hcond, if_false]
          exact List.mem_cons_of_mem w (ih hw)

/-- Claim C4: the capability createWindow with no url, or a falsy url, fails.
It evaluates the identifier newTabUrl, declared only inside
createInitialWindow, so it throws a ReferenceError rather than creating a
window navigated to the bundled new tab page. Evaluated at the initial
controller state with details carrying no url and an empty string url. -/
theorem C4_createWindow_without_url_throws :
    capCreateWindow initBrowser (CreateWindowDetails.mk none) =
      Except.error (JsErr.referenceErr "newTabUrl") ∧
    capCreateWindow initBrowser (CreateWindowDetails.mk (some "")) =
      Except.error (JsErr.referenceErr "newTabUrl") := by
  exact ⟨rfl, rfl⟩

/-- Claim C5 counterexample: create one window (id 1) and remove it through
the capability removeWindow. The claim says the windows collection no longer
contains it; in fact the array still holds the entry, now flagged destroyed,
because nothing ever removes from Browser.windows. -/
theorem C5_counterexample :
    (removeWindow (browserCreateWindow initBrowser none).1 (BWRef.mk 1 false)).windows.map
      (fun w => w.id) = [1] ∧
    ((removeWindow (browserCreateWindow initBrowser none).1 (BWRef.mk 1 false)).windows.find?
      (fun w => w.id == 1)).map (fun w => w.destroyed) = some true := by
  exact ⟨rfl, rfl⟩

/-- Claim C5 as amended: removeWindow on a resolved tracked window destroys
its tabs and its presentation surface, but the window is never removed from
the windows collection; the entry stays in place, in order, marked
destroyed. Surface based lookups filter destroyed handles, but the entry
itself remains discoverable. -/
theorem C5_amended_destroyed_window_stays_tracked (s : BrowserState) (bw : BWRef) (w : TWindow)
    (h : getWindowFromBrowserWindow s bw = some w) :
    (removeWindow s bw).windows.map (fun w0 => w0.id) = s.windows.map (fun w0 => w0.id) ∧
    (removeWindow s bw).windows.find? (fun w0 => w0.id == w.id) = some (windowDestroy w) ∧
    (windowDestroy w).destroyed = true := by
  have hbw : bw.isDestroyed = false := by
    by_cases hc : bw.isDestroyed = true
    · rw [getWindowFromBrowserWindow, if_pos hc] at h
      exact absurd h (by simp)
    · simpa using hc
  have hfind : s.windows.find? (fun w0 => w0.id == bw.id) = some w := by
    rw [getWindowFromBrowserWindow, if_neg (by simp [hbw])] at h
    exact h
  have hid : w.id = bw.id := by
    have := List.find?_some hfind
    simpa using this
  have hrw : removeWindow s bw = BrowserState.mk (updateWindow s.windows w.id windowDestroy)
      s.nextWindowId s.nextWcId s.popup := by
    rw [removeWindow, h]
  have hfind2 : s.windows.find? (fun w0 => w0.id == w.id) = some w := by
    rw [hid]; exact hfind
  refine ⟨?_, ?_, rfl⟩
  · rw [hrw]
    exact updateWindow_map_id s.windows w.id windowDestroy (fun w0 => rfl)
  · rw [hrw]
    exact updateWindow_find s.windows w.id windowDestroy w (fun w0 => rfl) hfind2

/-- Concrete instance of the amended C5: removing the only window keeps the
id list of the windows collection unchanged. -/
theorem C5_amended_witness :
    (removeWindow (browserCreateWindow initBrowser none).1 (BWRef.mk 1 false)).windows.map
        (fun w0 => w0.id) =
      (browserCreateWindow initBrowser none).1.windows.map (fun w0 => w0.id) :=
  (C5_amended_destroyed_window_stays_tracked (browserCreateWindow initBrowser none).1
    (BWRef.mk 1 false)
    (TWindow.mk 1 100 false false none (TabsState.mk [] none 0 false)) rfl).1

/-- Claim C7 counterexample: create a window (id 1), remove it through the
capability removeWindow, then call createTab with windowId 1. The id no
longer refers to a live window, yet createTab does not fail with the
windowId error: the destroyed entry still resolves through the windows
array, and the call returns ok after creating a tab in the destroyed
window. -/
theorem C7_counterexample :
    (removeWindow (browserCreateWindow initBrowser none).1 (BWRef.mk 1 false)).windows.map
      (fun w => (w.id, w.destroyed)) = [(1, true)] ∧
    createTab (removeWindow (browserCreateWindow initBrowser none).1 (BWRef.mk 1 false))
      (CreateTabDetails.mk (JsVal.num 1) (some "https://example.test") none) =
      Except.ok
        (BrowserState.mk
          [TWindow.mk 1 100 false true none
            (TabsState.mk [Tab.mk 0 (some "https://example.test")] (some 0) 1 true)]
          2 101 none, 0, 1) := by
  exact ⟨rfl, rfl⟩

/-- Claim C7 as amended: createTab fails with the windowId error exactly when
details.windowId is not the id of any entry of the windows array, live or
destroyed; the error is thrown before any mutation, so no tab is created
anywhere. A destroyed window that is still tracked resolves and no windowId
error is raised for its id. -/
theorem C7_amended_createTab_untracked_id (s : BrowserState) (d : CreateTabDetails) (n : Nat)
    (hw : d.windowId = JsVal.num n)
    (h : ∀ w ∈ s.windows, w.id ≠ n) :
    createTab s d = Except.error (windowNotFound (JsVal.num n)) := by
  have hfind : s.windows.find? (fun w0 => w0.id == n) = none := by
    rw [List.find?_eq_none]
    intro w hwmem
    simpa using h w hwmem
  simp [createTab, hw, hfind]

/-- Concrete instance of the amended C7: windowId 5 is tracked by no window,
so createTab throws the windowId error. -/
theorem C7_amended_witness :
    createTab (browserCreateWindow initBrowser none).1
      (CreateTabDetails.mk (JsVal.num 5) (some "https://a") none) =
      Except.error (windowNotFound (JsVal.num 5)) :=
  C7_amended_createTab_untracked_id (browserCreateWindow initBrowser none).1
    (CreateTabDetails.mk (JsVal.num 5) (some "https://a") none) 5 rfl (by decide)

/-- Claim C9 counterexample: with one tracked unfocused window and a
backgroundPage surface, the owning window resolution returns none, not the
first window of the collection. -/
theorem C9_counterexample :
    (browserCreateWindow initBrowser none).1.windows.map (fun w => w.focused) = [false] ∧
    (browserCreateWindow initBrowser none).1.windows ≠ [] ∧
    getWindowFromWebContents (browserCreateWindow initBrowser none).1
      (WebContents.mk 500 WCType.backgroundPage none) = Except.ok none := by
  refine ⟨rfl, by decide, rfl⟩

/-- Claim C9 as amended: a detached background surface resolves through the
Electron static BrowserWindow.getFocusedWindow; when no tracked window is
focused that static returns null, so the owning window resolution returns
none rather than falling back to the first window. -/
theorem C9_amended_background_no_focus (s : BrowserState) (wc : WebContents)
    (hb : wc.ctype = WCType.backgroundPage)
    (hp : s.popup = none)
    (hf : ∀ w ∈ s.windows, w.focused = false) :
    getWindowFromWebContents s wc = Except.ok none := by
  have hfind : s.windows.find? (fun w => w.focused && !w.destroyed) = none := by
    rw [List.find?_eq_none]
    intro w hw
    simp [hf w hw]
  simp [getWindowFromWebContents, hp, getParentWindowOfTab, hb,
    electronGetFocusedWindow, hfind]

/-- Concrete instance of the amended C9. -/
theorem C9_amended_witness :
    getWindowFromWebContents (browserCreateWindow initBrowser none).1
      (WebContents.mk 501 WCType.backgroundPage none) = Except.ok none :=
  C9_amended_background_no_focus (browserCreateWindow initBrowser none).1
    (WebContents.mk 501 WCType.backgroundPage none) rfl rfl (by decide)

/-- Claim C10: when details carries no windowId, or a windowId whose typeof
is not number, createTab does not resolve any default window: the typeof
guard short circuits and the closure throws the windowId error, with the
original value rendered into the message. -/
theorem C10_createTab_nonnumeric_windowId (s : BrowserState) (d : CreateTabDetails)
    (h : ∀ n, d.windowId ≠ JsVal.num n) :
    createTab s d = Except.error (windowNotFound d.windowId) := by
  cases hv : d.windowId with
  | num n => exact absurd hv (h n)
  | str s0 => simp [createTab, hv]
  | boolean b => simp [createTab, hv]
  | undef => simp [createTab, hv]

/-- Concrete instance of C10: an absent windowId yields the windowId error
with undefined interpolated into the message. -/
theorem C10_witness :
    createTab initBrowser (CreateTabDetails.mk JsVal.undef (some "https://a") none) =
      Except.error (JsErr.error "Unable to find windowId=undefined") :=
  C10_createTab_nonnumeric_windowId initBrowser
    (CreateTabDetails.mk JsVal.undef (some "https://a") none)
    (fun _ hn => JsVal.noConfusion hn)

theorem map_setUrl_fresh (l : List Tab) (tid : Nat) (u : String)
    (h : ∀ t ∈ l, t.id ≠ tid) :
    l.map (fun tb => if tb.id == tid then Tab.mk tb.id (some u) else tb) = l := by
  induction l with
  | nil => rfl
  | cons t rest ih =>
      have ht : ¬ ((t.id == tid) = true) := by
        simp only [beq_iff_eq]
        exact h t (List.mem_cons_self t rest)
      rw [List.map_cons, if_neg ht, ih (fun t2 h2 => h t2 (List.mem_cons_of_mem t h2))]

/-- Claim C8: createTab with a windowId that resolves to a tracked live
window and a nonempty URL creates exactly one new tab in that window (the
other windows and the rest of the list are untouched), navigates the new tab
to the given URL, selects it whenever details.active is absent or true,
leaves the previously selected tab selected when details.active is the
boolean false, and returns the pair of the new tab webContents handle and
the owning window handle. The window is assumed to have a selected tab
(every window creates its initial tab right after construction) and well
formed tab ids below the fresh id counter. -/
theorem C8_createTab_creates_navigates_selects
    (s : BrowserState) (n : Nat) (w : TWindow) (u : String) (act : Option Bool) (k : Nat)
    (hfind : s.windows.find? (fun w0 => w0.id == n) = some w)
    (hlive : w.destroyed = false)
    (hu : u ≠ "")
    (hsel : w.tabs.selectedId = some k)
    (hwf : ∀ t ∈ w.tabs.tabList, t.id < w.tabs.nextTabId)
    (hk : ∃ t ∈ w.tabs.tabList, t.id = k) :
    ∃ s2 w2 tid,
      createTab s (CreateTabDetails.mk (JsVal.num n) (some u) act) =
        Except.ok (s2, tid, w.id) ∧
      s2.windows.map (fun w0 => w0.id) = s.windows.map (fun w0 => w0.id) ∧
      s2.windows.find? (fun w0 => w0.id == n) = some w2 ∧
      w2.tabs.tabList = w.tabs.tabList ++ [Tab.mk tid (some u)] ∧
      (∀ t ∈ w.tabs.tabList, t.id ≠ tid) ∧
      ((act = none ∨ act = some true) → w2.tabs.selectedId = some tid) ∧
      (act = some false → w2.tabs.selectedId = some k ∧ k ≠ tid) ∧
      (∀ w0 ∈ s.windows, w0.id ≠ n → w0 ∈ s2.windows) := by
  have hfresh : ∀ t ∈ w.tabs.tabList, t.id ≠ w.tabs.nextTabId := fun t ht =>
    Nat.ne_of_lt (hwf t ht)
  have hkne : k ≠ w.tabs.nextTabId := by
    rcases hk with ⟨t0, ht0, hkid⟩
    rw [← hkid]
    exact Nat.ne_of_lt (hwf t0 ht0)
  have hubeq : (u == "") = false := by
    simp only [beq_eq_false_iff_ne, ne_eq]
    exact hu
  have hcreate : tabsCreate w.tabs =
      (TabsState.mk (w.tabs.tabList ++ [Tab.mk w.tabs.nextTabId none]) (some k)
        (w.tabs.nextTabId + 1) w.tabs.tabsDestroyed, Tab.mk w.tabs.nextTabId none) := by
    simp [tabsCreate, hsel]
  have hset : ∀ (x : Option String) (u2 : String),
      tabsSetUrl (TabsState.mk (w.tabs.tabList ++ [Tab.mk w.tabs.nextTabId x]) (some k)
        (w.tabs.nextTabId + 1) w.tabs.tabsDestroyed) w.tabs.nextTabId u2 =
      TabsState.mk (w.tabs.tabList ++ [Tab.mk w.tabs.nextTabId (some u2)]) (some k)
        (w.tabs.nextTabId + 1) w.tabs.tabsDestroyed := by
    intro x u2
    simp only [tabsSetUrl, List.map_append]
    rw [map_setUrl_fresh w.tabs.tabList w.tabs.nextTabId u2 hfresh]
    simp
  have hselect :
      tabsSelect (TabsState.mk (w.tabs.tabList ++ [Tab.mk w.tabs.nextTabId (some u)])
        (some k) (w.tabs.nextTabId + 1) w.tabs.tabsDestroyed) w.tabs.nextTabId =
      TabsState.mk (w.tabs.tabList ++ [Tab.mk w.tabs.nextTabId (some u)])
        (some w.tabs.nextTabId) (w.tabs.nextTabId + 1) w.tabs.tabsDestroyed := by
    simp [tabsSelect, List.any_append]
  have hct : createTab s (CreateTabDetails.mk (JsVal.num n) (some u) act) =
      Except.ok (createTabIn s n w (CreateTabDetails.mk (JsVal.num n) (some u) act)) := by
    simp [createTab, hfind]
  cases act with
  | none =>
      have hin : createTabIn s n w (CreateTabDetails.mk (JsVal.num n) (some u) none) =
          (BrowserState.mk (updateWindow s.windows n (fun w0 =>
              TWindow.mk w0.id w0.webContentsId w0.focused w0.destroyed w0.initialUrl
                (TabsState.mk (w.tabs.tabList ++ [Tab.mk w.tabs.nextTabId (some u)])
                  (some w.tabs.nextTabId) (w.tabs.nextTabId + 1) w.tabs.tabsDestroyed)))
            s.nextWindowId s.nextWcId s.popup,
           w.tabs.nextTabId, w.id) := by
        simp only [createTabIn, hcreate]
        cases hiu : w.initialUrl with
        | none => simp [hubeq, hset, hselect]
        | some u0 => simp [hubeq, hset, hselect]
      refine ⟨BrowserState.mk (updateWindow s.windows n (fun w0 =>
          TWindow.mk w0.id w0.webContentsId w0.focused w0.destroyed w0.initialUrl
            (TabsState.mk (w.tabs.tabList ++ [Tab.mk w.tabs.nextTabId (some u)])
              (some w.tabs.nextTabId) (w.tabs.nextTabId + 1) w.tabs.tabsDestroyed)))
          s.nextWindowId s.nextWcId s.popup,
        TWindow.mk w.id w.webContentsId w.focused w.destroyed w.initialUrl
          (TabsState.mk (w.tabs.tabList ++ [Tab.mk w.tabs.nextTabId (some u)])
            (some w.tabs.nextTabId) (w.tabs.nextTabId + 1) w.tabs.tabsDestroyed),
        w.tabs.nextTabId, by rw [hct, hin], ?_, ?_, rfl, hfresh,
        fun _ => rfl, fun ha => Option.noConfusion ha, ?_⟩
      · exact updateWindow_map_id s.windows n _ (fun w0 => rfl)
      · exact updateWindow_find s.windows n _ w (fun w0 => rfl) hfind
      · intro w0 h0 hne
        exact updateWindow_mem s.windows n _ w0 h0 hne
  | some b =>
      cases b with
      | true =>
          have hin : createTabIn s n w
              (CreateTabDetails.mk (JsVal.num n) (some u) (some true)) =
              (BrowserState.mk (updateWindow s.windows n (fun w0 =>
                  TWindow.mk w0.id w0.webContentsId w0.focused w0.destroyed w0.initialUrl
                    (TabsState.mk (w.tabs.tabList ++ [Tab.mk w.tabs.nextTabId (some u)])
                      (some w.tabs.nextTabId) (w.tabs.nextTabId + 1) w.tabs.tabsDestroyed)))
                s.nextWindowId s.nextWcId s.popup,
               w.tabs.nextTabId, w.id) := by
            simp only [createTabIn, hcreate]
            cases hiu : w.initialUrl with
            | none => simp [hubeq, hset, hselect]
            | some u0 => simp [hubeq, hset, hselect]
          refine ⟨BrowserState.mk (updateWindow s.windows n (fun w0 =>
              TWindow.mk w0.id w0.webContentsId w0.focused w0.destroyed w0.initialUrl
                (TabsState.mk (w.tabs.tabList ++ [Tab.mk w.tabs.nextTabId (some u)])
                  (some w.tabs.nextTabId) (w.tabs.nextTabId + 1) w.tabs.tabsDestroyed)))
              s.nextWindowId s.nextWcId s.popup,
            TWindow.mk w.id w.webContentsId w.focused w.destroyed w.initialUrl
              (TabsState.mk (w.tabs.tabList ++ [Tab.mk w.tabs.nextTabId (some u)])
                (some w.tabs.nextTabId) (w.tabs.nextTabId + 1) w.tabs.tabsDestroyed),
            w.tabs.nextTabId, by rw [hct, hin], ?_, ?_, rfl, hfresh,
            fun _ => rfl, ?_, ?_⟩
          · exact updateWindow_map_id s.windows n _ (fun w0 => rfl)
          · exact updateWindow_find s.windows n _ w (fun w0 => rfl) hfind
          · intro ha
            exact Bool.noConfusion (Option.some.inj ha)
          · intro w0 h0 hne
            exact updateWindow_mem s.windows n _ w0 h0 hne
      | false =>
          have hin : createTabIn s n w
              (CreateTabDetails.mk (JsVal.num n) (some u) (some false)) =
              (BrowserState.mk (updateWindow s.windows n (fun w0 =>
                  TWindow.mk w0.id w0.webContentsId w0.focused w0.destroyed w0.initialUrl
                    (TabsState.mk (w.tabs.tabList ++ [Tab.mk w.tabs.nextTabId (some u)])
                      (some k) (w.tabs.nextTabId + 1) w.tabs.tabsDestroyed)))
                s.nextWindowId s.nextWcId s.popup,
               w.tabs.nextTabId, w.id) := by
            simp only [createTabIn, hcreate]
            cases hiu : w.initialUrl with
            | none => simp [hubeq, hset]
            | some u0 => simp [hubeq, hset]
          refine ⟨BrowserState.mk (updateWindow s.windows n (fun w0 =>
              TWindow.mk w0.id w0.webContentsId w0.focused w0.destroyed w0.initialUrl
                (TabsState.mk (w.tabs.tabList ++ [Tab.mk w.tabs.nextTabId (some u)])
                  (some k) (w.tabs.nextTabId + 1) w.tabs.tabsDestroyed)))
              s.nextWindowId s.nextWcId s.popup,
            TWindow.mk w.id w.webContentsId w.focused w.destroyed w.initialUrl
              (TabsState.mk (w.tabs.tabList ++ [Tab.mk w.tabs.nextTabId (some u)])
                (some k) (w.tabs.nextTabId + 1) w.tabs.tabsDestroyed),
            w.tabs.nextTabId, by rw [hct, hin], ?_, ?_, rfl, hfresh, ?_,
            fun _ => ⟨rfl, hkne⟩, ?_⟩
          · exact updateWindow_map_id s.windows n _ (fun w0 => rfl)
          · exact updateWindow_find s.windows n _ w (fun w0 => rfl) hfind
          · intro ha
            rcases ha with ha | ha
            · exact Option.noConfusion ha
            · exact Bool.noConfusion (Option.some.inj ha)
          · intro w0 h0 hne
            exact updateWindow_mem s.windows n _ w0 h0 hne

/-- Concrete instance of C8: a window with one existing selected tab gains a
second tab navigated to the requested URL, which becomes selected since the
activation flag is absent. -/
theorem C8_witness :
    ∃ s2 w2 tid,
      createTab
          (BrowserState.mk
            [TWindow.mk 1 100 false false none (TabsState.mk [Tab.mk 0 none] (some 0) 1 false)]
            2 101 none)
          (CreateTabDetails.mk (JsVal.num 1) (some "https://example.test") none) =
        Except.ok (s2, tid, 1) ∧
      s2.windows.map (fun w0 => w0.id) = [1] ∧
      s2.windows.find? (fun w0 => w0.id == 1) = some w2 ∧
      w2.tabs.tabList = [Tab.mk 0 none] ++ [Tab.mk tid (some "https://example.test")] ∧
      (∀ t ∈ [Tab.mk 0 none], t.id ≠ tid) ∧
      (((none : Option Bool) = none ∨ (none : Option Bool) = some true) →
        w2.tabs.selectedId = some tid) ∧
      ((none : Option Bool) = some false → w2.tabs.selectedId = some 0 ∧ 0 ≠ tid) ∧
      (∀ w0 ∈ [TWindow.mk 1 100 false false none
          (TabsState.mk [Tab.mk 0 none] (some 0) 1 false)],
        w0.id ≠ 1 → w0 ∈ s2.windows) :=
  C8_createTab_creates_navigates_selects
    (BrowserState.mk
      [TWindow.mk 1 100 false false none (TabsState.mk [Tab.mk 0 none] (some 0) 1 false)]
      2 101 none)
    1 (TWindow.mk 1 100 false false none (TabsState.mk [Tab.mk 0 none] (some 0) 1 false))
    "https://example.test" none 0 rfl rfl (by decide) rfl (by decide) (by decide)
